import Mathlib

/-!
Process lifecycle of `cmd/yagpdb/main.go`.

A shallow embedding of `main` and `listenSignal`.  The two functions are
sequences of calls into other packages, so the embedding records every
statement they execute as an event of a trace, keeps the one package
variable they assign (`common.RedisPoolSize`) and the signals waiting on the
channel as explicit state, and ends in an outcome: `main` returned, the
process left through `os.Exit`, or it waits for a signal that never comes.

Calls into other packages are taken to come back to their caller; what they
report (an error of `common.Init`, of the sentry hook, of a stop routine) is
part of the surroundings `Env`.  For the stop routines `listenSignalUnder`
drops that assumption: there a routine may also never come back, or never
release the WaitGroup.
-/

namespace Yagpdb

/-! ## Data model -/

/-- The signals `signal.Notify(c, os.Interrupt, syscall.SIGTERM)` relays. -/
inductive Signal where
  | interrupt
  | sigterm
  deriving DecidableEq, Repr

/-- Go `sig.String()` for the two relayed signals. -/
def Signal.String : Signal → String
  | .interrupt => "interrupt"
  | .sigterm => "terminated"

/-- The package-level flag variables of `main.go`, after `flag.Parse()`. -/
structure Flags where
  flagRunBot : Bool
  flagRunWeb : Bool
  flagRunFeeds : String
  flagRunEverything : Bool
  flagDryRun : Bool
  flagLogTimestamp : Bool
  flagSysLog : Bool
  deriving DecidableEq, Repr

/-- What the code reads from outside `main.go`. -/
structure Env where
  /-- Value of `os.Getenv("YAGPDB_SENTRY_DSN")`. -/
  sentryDsn : String
  /-- Whether `logrus_sentry.NewSentryHook` returns a non-nil error. -/
  sentryHookErr : Bool
  /-- Whether `common.Init()` returns a non-nil error. -/
  commonInitErr : Bool
  /-- Value of `common.Testing`. -/
  testing : Bool
  /-- Value of `common.RedisPoolSize` before `main` runs. -/
  redisPoolSize : Nat
  /-- Relayed signals in the order they reach the channel. -/
  signals : List Signal
  /-- Whether `bot.Stop` reports a failure; the go statement discards it. -/
  botStopErr : Bool
  /-- Whether `feeds.Stop` reports a failure; the call statement discards it. -/
  feedsStopErr : Bool
  /-- Whether `web.Stop` reports a failure; the call statement discards it. -/
  webStopErr : Bool
  deriving DecidableEq, Repr

/-- The plugin packages whose registration function `main` calls, in the
order of their first call in the source. -/
inductive Plugin where
  | discordlogger
  | commands
  | stdcommands
  | serverstats
  | notifications
  | customcommands
  | reddit
  | moderation
  | reputation
  | aylien
  | streaming
  | automod
  | logs
  | autorole
  | reminders
  | soundboard
  | youtube
  | rolecommands
  | mqueue
  | botrest
  deriving DecidableEq, Repr

/-- Log levels used by `main.go`. -/
inductive Level where
  | info
  | error
  | fatal
  | println
  deriving DecidableEq, Repr

/-- The functions of other packages that `main.go` calls. -/
inductive Fn where
  | flagParse
  | logAddContextHook
  | logSetFormatter (disableTimestamp : Bool) (forceColors : Bool)
  | addSyslogHooks
  | newSentryHook (dsn : String)
  | logAddSentryHook
  | log (lvl : Level) (msg : String)
  /-- `common.Init()`, with the value `common.RedisPoolSize` holds when it is called. -/
  | commonInit (redisPoolSize : Nat)
  | configstoreInitDatabases
  /-- `p.Register()` / `p.RegisterPlugin()`. -/
  | register (p : Plugin)
  | commandsInitCommands
  | mqueueInitStores
  | webRun
  | botRun
  | feedsRun (names : List String)
  | pubsubPollEvents
  | signalNotify
  | wgAdd (n : Nat)
  | wgWait
  | botStop
  | feedsStop
  | webStop
  /-- `time.Sleep`, in seconds. -/
  | timeSleep (seconds : Nat)
  | osExit (code : Nat)
  deriving DecidableEq, Repr

/-- One executed statement. -/
inductive Event where
  /-- A plain call statement `f(...)`: the caller goes on when it is back. -/
  | call (f : Fn)
  /-- A go statement `go f(...)`. -/
  | spawn (f : Fn)
  /-- The assignment `common.RedisPoolSize = n`. -/
  | assignRedisPoolSize (n : Nat)
  /-- The statement `c := make(chan os.Signal, cap)`. -/
  | makeChan (cap : Nat)
  /-- The receive `sig := <-c`. -/
  | recv (sig : Signal)
  deriving DecidableEq, Repr

/-- How the process ends. -/
inductive Outcome where
  /-- The function `main` returned. -/
  | returned
  /-- The process left through `os.Exit(code)`; logrus `Fatal` is `os.Exit(1)`. -/
  | osExit (code : Nat)
  /-- The process waits for ever: at the receive `<-c` when no signal reaches the
  channel, in a call that does not come back, or in a `wg.Wait()` whose WaitGroup is
  never released. -/
  | blocked
  deriving DecidableEq, Repr

/-- Exit status of the process: a return of `main` is status 0. -/
def Outcome.exitStatus : Outcome → Option Nat
  | .returned => some 0
  | .osExit code => some code
  | .blocked => none

/-- The state the two functions change. -/
structure World where
  /-- The package variable `common.RedisPoolSize`. -/
  redisPoolSize : Nat
  /-- Signals not yet received from the channel. -/
  pending : List Signal
  /-- Statements executed so far, oldest first. -/
  trace : List Event
  deriving DecidableEq, Repr

/-- Result of running a piece of code from a world. -/
inductive Step (α : Type) where
  /-- Control reaches the end of the piece with value `a`. -/
  | next (a : α) (w : World)
  /-- The process ended or is stuck inside the piece. -/
  | halt (o : Outcome) (w : World)

/-- Code: a function from the world before to the step after. -/
def Prog (α : Type) : Type := World → Step α

instance : Monad Prog where
  pure a := fun w => Step.next a w
  bind m k := fun w =>
    match m w with
    | Step.next a w2 => k a w2
    | Step.halt o w2 => Step.halt o w2

/-- Append one event to the trace. -/
def emit (e : Event) : Prog Unit
  | ⟨n, p, t⟩ => Step.next () ⟨n, p, t ++ [e]⟩

/-- A call statement. -/
def call (f : Fn) : Prog Unit := emit (Event.call f)

/-- A go statement. -/
def spawn (f : Fn) : Prog Unit := emit (Event.spawn f)

/-- Assignment `common.RedisPoolSize = n`. -/
def setRedisPoolSize (n : Nat) : Prog Unit
  | ⟨_, p, t⟩ => Step.next () ⟨n, p, t ++ [Event.assignRedisPoolSize n]⟩

/-- Call of `common.Init()`: it sees the current `common.RedisPoolSize`. -/
def commonInit : Prog Unit
  | ⟨n, p, t⟩ => Step.next () ⟨n, p, t ++ [Event.call (Fn.commonInit n)]⟩

/-- Call of `os.Exit(code)`. -/
def osExit (code : Nat) : Prog Unit
  | ⟨n, p, t⟩ => Step.halt (Outcome.osExit code) ⟨n, p, t ++ [Event.call (Fn.osExit code)]⟩

/-- Logrus `Fatal`: writes the entry, then `os.Exit(1)`. -/
def logFatal (msg : String) : Prog Unit
  | ⟨n, p, t⟩ => Step.halt (Outcome.osExit 1) ⟨n, p, t ++ [Event.call (Fn.log Level.fatal msg)]⟩

/-- Receive `<-c`: takes the oldest waiting signal, or waits for ever. -/
def recvSignal : Prog Signal
  | ⟨n, [], t⟩ => Step.halt Outcome.blocked ⟨n, [], t⟩
  | ⟨n, sig :: rest, t⟩ => Step.next sig ⟨n, rest, t ++ [Event.recv sig]⟩

/-! ## `strings.Split` with a one-byte separator -/

/-- Cut `s` at every `sep`; `acc` holds the current piece, newest first. -/
def splitChars (sep : Char) : List Char → List Char → List (List Char)
  | acc, [] => [acc.reverse]
  | acc, c :: cs =>
    if c = sep then acc.reverse :: splitChars sep [] cs
    else splitChars sep (c :: acc) cs

/-- Go `strings.Split(s, sep)` for a separator of one byte: the pieces of `s`
between the occurrences of `sep`; an `s` without `sep` gives the list `[s]`. -/
def stringsSplit (s : String) (sep : Char) : List String :=
  (splitChars sep [] s.toList).map String.mk

/-! ## The code -/

/-- Function `listenSignal` (main.go lines 168-213). -/
def listenSignal (f : Flags) (env : Env) : Prog Unit := do
  emit (Event.makeChan 2)
  call Fn.signalNotify
  let sig ← recvSignal
  call (Fn.log Level.info ("SHUTTING DOWN... " ++ sig.String))
  let mut shouldWait := false
  if f.flagRunBot || f.flagRunEverything then
    call (Fn.wgAdd 1)
    spawn Fn.botStop
    shouldWait := true
  if f.flagRunFeeds != "" || f.flagRunEverything then
    call Fn.feedsStop
    shouldWait := true
  if f.flagRunWeb then
    call Fn.webStop
    call (Fn.timeSleep 1)
  if shouldWait then
    call (Fn.log Level.info "Waiting for things to shut down...")
    call Fn.wgWait
  call (Fn.log Level.info "Sleeping for a second to allow work to finish")
  call (Fn.timeSleep 1)
  if !env.testing then
    call (Fn.log Level.info "Sleeping a little longer")
    call (Fn.timeSleep 4)
  call (Fn.log Level.info "Bye..")
  osExit 0

/-- Function `main` (main.go lines 68-165). -/
def main (f : Flags) (env : Env) : Prog Unit := do
  call Fn.flagParse
  call Fn.logAddContextHook
  call (Fn.logSetFormatter (!env.testing) true)
  if f.flagSysLog then
    call Fn.addSyslogHooks
  if env.sentryDsn != "" then
    call (Fn.newSentryHook env.sentryDsn)
    if !env.sentryHookErr then
      call Fn.logAddSentryHook
      call (Fn.log Level.info "Added Sentry Hook")
    else
      call (Fn.log Level.error "Failed adding sentry hook")
  if !f.flagRunBot && !f.flagRunWeb && f.flagRunFeeds == "" && !f.flagRunEverything && !f.flagDryRun then
    call (Fn.log Level.error "Didnt specify what to run, see -h for more info")
    return
  if f.flagRunWeb || f.flagRunEverything then
    setRedisPoolSize 25
  if f.flagRunBot || f.flagRunEverything then
    setRedisPoolSize 100
  call (Fn.log Level.info "YAGPDB is initializing...")
  commonInit
  if env.commonInitErr then
    logFatal "Failed intializing"
  call Fn.configstoreInitDatabases
  call (Fn.register Plugin.discordlogger)
  call (Fn.register Plugin.commands)
  call (Fn.register Plugin.stdcommands)
  call (Fn.register Plugin.serverstats)
  call (Fn.register Plugin.notifications)
  call (Fn.register Plugin.customcommands)
  call (Fn.register Plugin.reddit)
  call (Fn.register Plugin.moderation)
  call (Fn.register Plugin.reputation)
  call (Fn.register Plugin.aylien)
  call (Fn.register Plugin.streaming)
  call (Fn.register Plugin.automod)
  call (Fn.register Plugin.logs)
  call (Fn.register Plugin.autorole)
  call (Fn.register Plugin.reminders)
  call (Fn.register Plugin.soundboard)
  call (Fn.register Plugin.youtube)
  call (Fn.register Plugin.rolecommands)
  if f.flagDryRun then
    call (Fn.log Level.println "This is a dry run, exiting")
    return
  call Fn.commandsInitCommands
  call Fn.mqueueInitStores
  if f.flagRunWeb || f.flagRunEverything then
    spawn Fn.webRun
  if f.flagRunBot || f.flagRunEverything then
    call (Fn.register Plugin.mqueue)
    call (Fn.register Plugin.botrest)
    call Fn.botRun
  if f.flagRunFeeds != "" || f.flagRunEverything then
    spawn (Fn.feedsRun (stringsSplit f.flagRunFeeds ','))
  spawn Fn.pubsubPollEvents
  listenSignal f env

/-- A finished run of the process. -/
structure Run where
  /-- Every statement executed, oldest first. -/
  trace : List Event
  /-- How the process ended. -/
  outcome : Outcome
  /-- Final value of `common.RedisPoolSize`. -/
  redisPoolSize : Nat
  /-- Signals left unread on the channel. -/
  pending : List Signal
  deriving DecidableEq, Repr

/-- Close a step of the top-level function: reaching the end of `main` is a return. -/
def Step.toRun : Step Unit → Run
  | Step.next _ w => ⟨w.trace, Outcome.returned, w.redisPoolSize, w.pending⟩
  | Step.halt o w => ⟨w.trace, o, w.redisPoolSize, w.pending⟩

/-- The world in which the process starts. -/
def World.start (env : Env) : World := ⟨env.redisPoolSize, env.signals, []⟩

/-- Run the process on the given flags and surroundings. -/
def runMain (f : Flags) (env : Env) : Run := (main f env (World.start env)).toRun

/-- Run `listenSignal` alone from a world. -/
def runListenSignal (f : Flags) (env : Env) (w : World) : Run := (listenSignal f env w).toRun

/-! ## The shutdown with stop routines that may hang -/

/-- What a stop routine of another package (`bot.Stop`, `feeds.Stop`, `web.Stop`) does
once it is invoked. -/
inductive Routine where
  /-- It comes back to its caller and every `wg.Add` made for it is matched by a
  `wg.Done`; `failed` tells whether it reports a failure. -/
  | completes (failed : Bool)
  /-- It never comes back; started by a go statement, it never calls `wg.Done`. -/
  | hangs
  deriving DecidableEq, Repr

/-- Whether the routine comes back and releases the WaitGroup. -/
def Routine.returns : Routine → Bool
  | .completes _ => true
  | .hangs => false

/-- The behaviour of the three stop routines. -/
structure StopBehaviour where
  /-- Behaviour of `bot.Stop`. -/
  botStop : Routine
  /-- Behaviour of `feeds.Stop`. -/
  feedsStop : Routine
  /-- Behaviour of `web.Stop`. -/
  webStop : Routine
  deriving DecidableEq, Repr

/-- A plain call of a stop routine: the caller goes on only when the routine comes
back; what the routine reports is discarded. -/
def callRoutine (fn : Fn) (r : Routine) : Prog Unit
  | ⟨n, p, t⟩ =>
    match r with
    | Routine.completes _ => Step.next () ⟨n, p, t ++ [Event.call fn]⟩
    | Routine.hangs => Step.halt Outcome.blocked ⟨n, p, t ++ [Event.call fn]⟩

/-- Call of `wg.Wait()`: it comes back only when every `wg.Add` is matched by a
`wg.Done`, which `released` tells. -/
def waitGroupWait (released : Bool) : Prog Unit
  | ⟨n, p, t⟩ =>
    if released then Step.next () ⟨n, p, t ++ [Event.call Fn.wgWait]⟩
    else Step.halt Outcome.blocked ⟨n, p, t ++ [Event.call Fn.wgWait]⟩

/-- Function `listenSignal` (main.go lines 168-213) with the behaviour of the stop
routines as a parameter.  The local `released` stands for the state of `wg`: whether the
`wg.Add(1)` of line 180 gets its `wg.Done` from `bot.Stop`.  With routines that all
complete this is `listenSignal`. -/
def listenSignalUnder (b : StopBehaviour) (f : Flags) (env : Env) : Prog Unit := do
  emit (Event.makeChan 2)
  call Fn.signalNotify
  let sig ← recvSignal
  call (Fn.log Level.info ("SHUTTING DOWN... " ++ sig.String))
  let mut shouldWait := false
  let mut released := true
  if f.flagRunBot || f.flagRunEverything then
    call (Fn.wgAdd 1)
    spawn Fn.botStop
    released := b.botStop.returns
    shouldWait := true
  if f.flagRunFeeds != "" || f.flagRunEverything then
    callRoutine Fn.feedsStop b.feedsStop
    shouldWait := true
  if f.flagRunWeb then
    callRoutine Fn.webStop b.webStop
    call (Fn.timeSleep 1)
  if shouldWait then
    call (Fn.log Level.info "Waiting for things to shut down...")
    waitGroupWait released
  call (Fn.log Level.info "Sleeping for a second to allow work to finish")
  call (Fn.timeSleep 1)
  if !env.testing then
    call (Fn.log Level.info "Sleeping a little longer")
    call (Fn.timeSleep 4)
  call (Fn.log Level.info "Bye..")
  osExit 0

/-- Run `listenSignalUnder` from a world. -/
def runListenSignalUnder (b : StopBehaviour) (f : Flags) (env : Env) (w : World) : Run :=
  (listenSignalUnder b f env w).toRun

/-- The shutdown ends in `os.Exit(0)` whatever the stop routines do. -/
def ExitsWhateverStopsDo (f : Flags) (env : Env) (w : World) : Prop :=
  ∀ b : StopBehaviour, (runListenSignalUnder b f env w).outcome = Outcome.osExit 0

/-! ## Reading a trace -/

/-- The function `fn` was invoked, by a call statement or by a go statement. -/
def invoked (fn : Fn) (tr : List Event) : Prop :=
  Event.call fn ∈ tr ∨ Event.spawn fn ∈ tr

instance (fn : Fn) (tr : List Event) : Decidable (invoked fn tr) := by
  unfold invoked
  infer_instance

/-- How often `fn` was invoked, by a call statement or by a go statement. -/
def invocations (fn : Fn) (tr : List Event) : Nat :=
  tr.count (Event.call fn) + tr.count (Event.spawn fn)

/-- The plugins whose registration function was called, in call order. -/
def registered (tr : List Event) : List Plugin :=
  tr.filterMap fun e =>
    match e with
    | Event.call (Fn.register q) => some q
    | _ => none

/-- How many signals were received from the channel. -/
def recvCount (tr : List Event) : Nat :=
  tr.countP fun e =>
    match e with
    | Event.recv _ => true
    | _ => false

/-- The exit status is defined and is not zero. -/
def ExitsNonZero (r : Run) : Prop :=
  ∃ c, r.outcome.exitStatus = some c ∧ c ≠ 0

/-- No plugin registration call comes after a call of `commands.InitCommands`. -/
def RegistrationsPrecedeInitCommands (tr : List Event) : Prop :=
  ∀ (q : Plugin) (pre post : List Event), tr = pre ++ Event.call (Fn.register q) :: post →
    Event.call Fn.commandsInitCommands ∉ pre

/-! ## The event lists of each phase -/

/-- Events of the three stop branches of `listenSignal` (lines 178-196). -/
def stopCalls (f : Flags) : List Event :=
  (if f.flagRunBot || f.flagRunEverything then [Event.call (Fn.wgAdd 1), Event.spawn Fn.botStop] else []) ++
  (if f.flagRunFeeds != "" || f.flagRunEverything then [Event.call Fn.feedsStop] else []) ++
  (if f.flagRunWeb then [Event.call Fn.webStop, Event.call (Fn.timeSleep 1)] else [])

/-- Events of the join of `listenSignal` (lines 198-201); `shouldWait` is true exactly
when the bot branch or the feeds branch ran. -/
def waitEvents (f : Flags) : List Event :=
  if (f.flagRunBot || f.flagRunEverything) || (f.flagRunFeeds != "" || f.flagRunEverything) then
    [Event.call (Fn.log Level.info "Waiting for things to shut down..."), Event.call Fn.wgWait]
  else []

/-- Events of the stop phase of `listenSignal`, after the signal is logged. -/
def stopEvents (f : Flags) : List Event :=
  stopCalls f ++ waitEvents f

/-- Events of the last phase of `listenSignal`. -/
def graceEvents (env : Env) : List Event :=
  [Event.call (Fn.log Level.info "Sleeping for a second to allow work to finish"),
   Event.call (Fn.timeSleep 1)] ++
  (if env.testing then [] else
    [Event.call (Fn.log Level.info "Sleeping a little longer"), Event.call (Fn.timeSleep 4)]) ++
  [Event.call (Fn.log Level.info "Bye.."), Event.call (Fn.osExit 0)]

/-- Events of `main` before the run-mode check (lines 69-95). -/
def prologueEvents (f : Flags) (env : Env) : List Event :=
  [Event.call Fn.flagParse, Event.call Fn.logAddContextHook,
   Event.call (Fn.logSetFormatter (!env.testing) true)] ++
  (if f.flagSysLog then [Event.call Fn.addSyslogHooks] else []) ++
  (if env.sentryDsn != "" then
    Event.call (Fn.newSentryHook env.sentryDsn) ::
      (if env.sentryHookErr then [Event.call (Fn.log Level.error "Failed adding sentry hook")]
       else [Event.call Fn.logAddSentryHook, Event.call (Fn.log Level.info "Added Sentry Hook")])
   else [])

/-- The run-mode check of line 97: nothing was selected. -/
def noRunMode (f : Flags) : Bool :=
  !f.flagRunBot && !f.flagRunWeb && f.flagRunFeeds == "" && !f.flagRunEverything && !f.flagDryRun

/-- The assignments of lines 102-107. -/
def sizingEvents (f : Flags) : List Event :=
  (if f.flagRunWeb || f.flagRunEverything then [Event.assignRedisPoolSize 25] else []) ++
  (if f.flagRunBot || f.flagRunEverything then [Event.assignRedisPoolSize 100] else [])

/-- Value of `common.RedisPoolSize` after lines 102-107, from the value before. -/
def poolSizeAfterSizing (f : Flags) (prior : Nat) : Nat :=
  if f.flagRunBot || f.flagRunEverything then 100
  else if f.flagRunWeb || f.flagRunEverything then 25
  else prior

/-- The plugins of the setup block, lines 121-138, in source order. -/
def setupPlugins : List Plugin :=
  [Plugin.discordlogger, Plugin.commands, Plugin.stdcommands, Plugin.serverstats,
   Plugin.notifications, Plugin.customcommands, Plugin.reddit, Plugin.moderation,
   Plugin.reputation, Plugin.aylien, Plugin.streaming, Plugin.automod, Plugin.logs,
   Plugin.autorole, Plugin.reminders, Plugin.soundboard, Plugin.youtube, Plugin.rolecommands]

/-- Events of lines 109-138 when `common.Init` succeeds. -/
def setupEvents (f : Flags) (prior : Nat) : List Event :=
  [Event.call (Fn.log Level.info "YAGPDB is initializing..."),
   Event.call (Fn.commonInit (poolSizeAfterSizing f prior)),
   Event.call Fn.configstoreInitDatabases] ++
  setupPlugins.map (fun p => Event.call (Fn.register p))

/-- Events of lines 145-162. -/
def launchEvents (f : Flags) : List Event :=
  [Event.call Fn.commandsInitCommands, Event.call Fn.mqueueInitStores] ++
  (if f.flagRunWeb || f.flagRunEverything then [Event.spawn Fn.webRun] else []) ++
  (if f.flagRunBot || f.flagRunEverything then
    [Event.call (Fn.register Plugin.mqueue), Event.call (Fn.register Plugin.botrest),
     Event.call Fn.botRun] else []) ++
  (if f.flagRunFeeds != "" || f.flagRunEverything then
    [Event.spawn (Fn.feedsRun (stringsSplit f.flagRunFeeds ','))] else []) ++
  [Event.spawn Fn.pubsubPollEvents]

/-! ## Normal forms of the two functions -/

theorem listenSignal_nil (f : Flags) (env : Env) (n : Nat) (t : List Event) :
    listenSignal f env ⟨n, [], t⟩ =
      Step.halt Outcome.blocked ⟨n, [], t ++ [Event.makeChan 2, Event.call Fn.signalNotify]⟩ := by
  simp [listenSignal, bind, emit, call, recvSignal]

/-- With a signal on the channel `listenSignal` runs to `os.Exit(0)`: the events it adds. -/
theorem listenSignal_cons (f : Flags) (env : Env) (n : Nat) (sig : Signal) (rest : List Signal)
    (t : List Event) :
    listenSignal f env ⟨n, sig :: rest, t⟩ =
      Step.halt (Outcome.osExit 0)
        ⟨n, rest, t ++ [Event.makeChan 2, Event.call Fn.signalNotify, Event.recv sig,
            Event.call (Fn.log Level.info ("SHUTTING DOWN... " ++ sig.String))] ++
            stopEvents f ++ graceEvents env⟩ := by
  rcases f with ⟨b, wb, fs, a, d, ts, sl⟩
  rcases env with ⟨dsn, she, cie, tst, rps, sigs, e1, e2, e3⟩
  by_cases hfs : fs = "" <;> cases b <;> cases wb <;> cases a <;> cases tst <;>
    simp [listenSignal, bind, emit, call, spawn, recvSignal, osExit, stopEvents, stopCalls, waitEvents,
      graceEvents, hfs, pure]

/-- Sequencing of two pieces of code, applied to a world. -/
theorem bind_apply {α β : Type} (m : Prog α) (k : α → Prog β) (w : World) :
    (m >>= k) w = match m w with
      | Step.next a w2 => k a w2
      | Step.halt o w2 => Step.halt o w2 := rfl

/-- The empty piece of code, applied to a world. -/
theorem pure_apply {α : Type} (a : α) (w : World) : (pure a : Prog α) w = Step.next a w := rfl

/-- Lines 69-95 of `main`, followed by any code `k`: the prologue events, then `k`. -/
theorem main_seg1 (f : Flags) (env : Env) (k : Prog Unit) (n : Nat) (p : List Signal)
    (t : List Event) :
    (do
      call Fn.flagParse
      call Fn.logAddContextHook
      call (Fn.logSetFormatter (!env.testing) true)
      if f.flagSysLog then
        call Fn.addSyslogHooks
      if env.sentryDsn != "" then
        call (Fn.newSentryHook env.sentryDsn)
        if !env.sentryHookErr then
          call Fn.logAddSentryHook
          call (Fn.log Level.info "Added Sentry Hook")
        else
          call (Fn.log Level.error "Failed adding sentry hook")
      k : Prog Unit) ⟨n, p, t⟩ = k ⟨n, p, t ++ prologueEvents f env⟩ := by
  rcases f with ⟨b, wb, fs, a, d, ts, sl⟩
  rcases env with ⟨dsn, she, cie, tst, rps, sigs, e1, e2, e3⟩
  by_cases hdsn : dsn = "" <;> cases sl <;> cases she <;>
    simp [bind_apply, pure_apply, call, emit, prologueEvents, hdsn]

/-- Lines 97-114 of `main`, followed by any code `k`: the run-mode check, the sizing and `common.Init`. -/
theorem main_seg2 (f : Flags) (env : Env) (k : Prog Unit) (n : Nat) (p : List Signal)
    (t : List Event) :
    (do
      if !f.flagRunBot && !f.flagRunWeb && f.flagRunFeeds == "" && !f.flagRunEverything && !f.flagDryRun then
        call (Fn.log Level.error "Didnt specify what to run, see -h for more info")
        return
      if f.flagRunWeb || f.flagRunEverything then
        setRedisPoolSize 25
      if f.flagRunBot || f.flagRunEverything then
        setRedisPoolSize 100
      call (Fn.log Level.info "YAGPDB is initializing...")
      commonInit
      if env.commonInitErr then
        logFatal "Failed intializing"
      k : Prog Unit) ⟨n, p, t⟩ =
      if noRunMode f then
        Step.next () ⟨n, p, t ++
          [Event.call (Fn.log Level.error "Didnt specify what to run, see -h for more info")]⟩
      else if env.commonInitErr then
        Step.halt (Outcome.osExit 1)
          ⟨poolSizeAfterSizing f n, p, t ++ sizingEvents f ++
              [Event.call (Fn.log Level.info "YAGPDB is initializing..."),
               Event.call (Fn.commonInit (poolSizeAfterSizing f n)),
               Event.call (Fn.log Level.fatal "Failed intializing")]⟩
      else
        k ⟨poolSizeAfterSizing f n, p, t ++ sizingEvents f ++
              [Event.call (Fn.log Level.info "YAGPDB is initializing..."),
               Event.call (Fn.commonInit (poolSizeAfterSizing f n))]⟩ := by
  rcases f with ⟨b, wb, fs, a, d, ts, sl⟩
  rcases env with ⟨dsn, she, cie, tst, rps, sigs, e1, e2, e3⟩
  by_cases hfs : fs = "" <;> cases b <;> cases wb <;> cases a <;> cases d <;> cases cie <;>
    simp [bind_apply, pure_apply, call, emit, setRedisPoolSize, commonInit, logFatal,
      noRunMode, poolSizeAfterSizing, sizingEvents, hfs]

/-- Lines 116-143 of `main`, followed by any code `k`: the plugin setup and the dry-run exit. -/
theorem main_seg3 (f : Flags) (k : Prog Unit) (n : Nat) (p : List Signal)
    (t : List Event) :
    (do
      call Fn.configstoreInitDatabases
      call (Fn.register Plugin.discordlogger)
      call (Fn.register Plugin.commands)
      call (Fn.register Plugin.stdcommands)
      call (Fn.register Plugin.serverstats)
      call (Fn.register Plugin.notifications)
      call (Fn.register Plugin.customcommands)
      call (Fn.register Plugin.reddit)
      call (Fn.register Plugin.moderation)
      call (Fn.register Plugin.reputation)
      call (Fn.register Plugin.aylien)
      call (Fn.register Plugin.streaming)
      call (Fn.register Plugin.automod)
      call (Fn.register Plugin.logs)
      call (Fn.register Plugin.autorole)
      call (Fn.register Plugin.reminders)
      call (Fn.register Plugin.soundboard)
      call (Fn.register Plugin.youtube)
      call (Fn.register Plugin.rolecommands)
      if f.flagDryRun then
        call (Fn.log Level.println "This is a dry run, exiting")
        return
      k : Prog Unit) ⟨n, p, t⟩ =
      if f.flagDryRun then
        Step.next () ⟨n, p, t ++ Event.call Fn.configstoreInitDatabases ::
          setupPlugins.map (fun q => Event.call (Fn.register q)) ++
          [Event.call (Fn.log Level.println "This is a dry run, exiting")]⟩
      else
        k ⟨n, p, t ++ Event.call Fn.configstoreInitDatabases ::
          setupPlugins.map (fun q => Event.call (Fn.register q))⟩ := by
  rcases f with ⟨b, wb, fs, a, d, ts, sl⟩
  cases d <;>
    simp [bind_apply, pure_apply, call, emit, setupPlugins]

/-- Lines 145-162 of `main`, followed by any code `k`: the launch events, then `k`. -/
theorem main_seg4 (f : Flags) (k : Prog Unit) (n : Nat) (p : List Signal)
    (t : List Event) :
    (do
      call Fn.commandsInitCommands
      call Fn.mqueueInitStores
      if f.flagRunWeb || f.flagRunEverything then
        spawn Fn.webRun
      if f.flagRunBot || f.flagRunEverything then
        call (Fn.register Plugin.mqueue)
        call (Fn.register Plugin.botrest)
        call Fn.botRun
      if f.flagRunFeeds != "" || f.flagRunEverything then
        spawn (Fn.feedsRun (stringsSplit f.flagRunFeeds ','))
      spawn Fn.pubsubPollEvents
      k : Prog Unit) ⟨n, p, t⟩ = k ⟨n, p, t ++ launchEvents f⟩ := by
  rcases f with ⟨b, wb, fs, a, d, ts, sl⟩
  by_cases hfs : fs = "" <;> cases b <;> cases wb <;> cases a <;>
    simp [bind_apply, pure_apply, call, spawn, emit, launchEvents, hfs]

/-- Normal form of `main`: its four ways through, from any world. -/
theorem main_eq (f : Flags) (env : Env) (n : Nat) (p : List Signal) (t : List Event) :
    main f env ⟨n, p, t⟩ =
      if noRunMode f then
        Step.next () ⟨n, p, t ++ prologueEvents f env ++
          [Event.call (Fn.log Level.error "Didnt specify what to run, see -h for more info")]⟩
      else if env.commonInitErr then
        Step.halt (Outcome.osExit 1)
          ⟨poolSizeAfterSizing f n, p,
            t ++ prologueEvents f env ++ sizingEvents f ++
              [Event.call (Fn.log Level.info "YAGPDB is initializing..."),
               Event.call (Fn.commonInit (poolSizeAfterSizing f n)),
               Event.call (Fn.log Level.fatal "Failed intializing")]⟩
      else if f.flagDryRun then
        Step.next ()
          ⟨poolSizeAfterSizing f n, p,
            t ++ prologueEvents f env ++ sizingEvents f ++ setupEvents f n ++
              [Event.call (Fn.log Level.println "This is a dry run, exiting")]⟩
      else
        listenSignal f env
          ⟨poolSizeAfterSizing f n, p,
            t ++ prologueEvents f env ++ sizingEvents f ++ setupEvents f n ++ launchEvents f⟩ := by
  refine (main_seg1 f env _ n p t).trans ?_
  refine (main_seg2 f env _ _ _ _).trans ?_
  by_cases h1 : noRunMode f = true
  · simp [h1]
  by_cases h2 : env.commonInitErr = true
  · simp [h1, h2]
  simp only [h1, h2, if_false]
  refine (main_seg3 f _ _ _ _).trans ?_
  by_cases h3 : f.flagDryRun = true
  · simp [h3, setupEvents]
  simp only [h3, if_false]
  refine (main_seg4 f _ _ _ _).trans ?_
  simp [setupEvents]

/-- The run when no run mode is selected. -/
theorem runMain_noRunMode (f : Flags) (env : Env) (h : noRunMode f = true) :
    runMain f env =
      ⟨prologueEvents f env ++
        [Event.call (Fn.log Level.error "Didnt specify what to run, see -h for more info")],
       Outcome.returned, env.redisPoolSize, env.signals⟩ := by
  simp [runMain, World.start, main_eq, h, Step.toRun]

/-- The run when `common.Init` fails. -/
theorem runMain_initErr (f : Flags) (env : Env) (h : noRunMode f = false)
    (hc : env.commonInitErr = true) :
    runMain f env =
      ⟨prologueEvents f env ++ sizingEvents f ++
        [Event.call (Fn.log Level.info "YAGPDB is initializing..."),
         Event.call (Fn.commonInit (poolSizeAfterSizing f env.redisPoolSize)),
         Event.call (Fn.log Level.fatal "Failed intializing")],
       Outcome.osExit 1, poolSizeAfterSizing f env.redisPoolSize, env.signals⟩ := by
  simp [runMain, World.start, main_eq, h, hc, Step.toRun]

/-- The run of a dry run. -/
theorem runMain_dry (f : Flags) (env : Env) (hd : f.flagDryRun = true)
    (hc : env.commonInitErr = false) :
    runMain f env =
      ⟨prologueEvents f env ++ sizingEvents f ++ setupEvents f env.redisPoolSize ++
        [Event.call (Fn.log Level.println "This is a dry run, exiting")],
       Outcome.returned, poolSizeAfterSizing f env.redisPoolSize, env.signals⟩ := by
  have h : noRunMode f = false := by simp [noRunMode, hd]
  simp [runMain, World.start, main_eq, h, hc, hd, Step.toRun]

/-- The run that launches and then gets no signal. -/
theorem runMain_blocked (f : Flags) (env : Env) (h : noRunMode f = false)
    (hd : f.flagDryRun = false) (hc : env.commonInitErr = false) (hs : env.signals = []) :
    runMain f env =
      ⟨prologueEvents f env ++ sizingEvents f ++ setupEvents f env.redisPoolSize ++
        launchEvents f ++ [Event.makeChan 2, Event.call Fn.signalNotify],
       Outcome.blocked, poolSizeAfterSizing f env.redisPoolSize, []⟩ := by
  simp [runMain, World.start, main_eq, h, hc, hd, hs, Step.toRun, listenSignal_nil]

/-- The run that launches and is shut down by a signal. -/
theorem runMain_shutdown (f : Flags) (env : Env) (sig : Signal) (rest : List Signal)
    (h : noRunMode f = false) (hd : f.flagDryRun = false) (hc : env.commonInitErr = false)
    (hs : env.signals = sig :: rest) :
    runMain f env =
      ⟨prologueEvents f env ++ sizingEvents f ++ setupEvents f env.redisPoolSize ++
        launchEvents f ++ [Event.makeChan 2, Event.call Fn.signalNotify, Event.recv sig,
          Event.call (Fn.log Level.info ("SHUTTING DOWN... " ++ sig.String))] ++
        stopEvents f ++ graceEvents env,
       Outcome.osExit 0, poolSizeAfterSizing f env.redisPoolSize, rest⟩ := by
  simp [runMain, World.start, main_eq, h, hc, hd, hs, Step.toRun, listenSignal_cons]

/-! ## What each phase contains -/

theorem mem_prologueEvents (f : Flags) (env : Env) (e : Event) :
    e ∈ prologueEvents f env ↔
      e = Event.call Fn.flagParse ∨ e = Event.call Fn.logAddContextHook ∨
      e = Event.call (Fn.logSetFormatter (!env.testing) true) ∨
      (f.flagSysLog = true ∧ e = Event.call Fn.addSyslogHooks) ∨
      (env.sentryDsn ≠ "" ∧
        (e = Event.call (Fn.newSentryHook env.sentryDsn) ∨
         (env.sentryHookErr = true ∧
            e = Event.call (Fn.log Level.error "Failed adding sentry hook")) ∨
         (env.sentryHookErr = false ∧
            (e = Event.call Fn.logAddSentryHook ∨
             e = Event.call (Fn.log Level.info "Added Sentry Hook"))))) := by
  rcases env with ⟨dsn, she, cie, tst, rps, sigs, e1, e2, e3⟩
  rcases f with ⟨b, wb, fs, a, d, ts, sl⟩
  by_cases hdsn : dsn = "" <;> cases sl <;> cases she <;> simp [prologueEvents, hdsn, or_assoc]

/-- Events of the pool sizing. -/
theorem mem_sizingEvents (f : Flags) (e : Event) :
    e ∈ sizingEvents f ↔
      ((f.flagRunWeb = true ∨ f.flagRunEverything = true) ∧ e = Event.assignRedisPoolSize 25) ∨
      ((f.flagRunBot = true ∨ f.flagRunEverything = true) ∧ e = Event.assignRedisPoolSize 100) := by
  rcases f with ⟨b, wb, fs, a, d, ts, sl⟩
  cases b <;> cases wb <;> cases a <;> simp [sizingEvents]

/-- Events of the setup. -/
theorem mem_setupEvents (f : Flags) (n : Nat) (e : Event) :
    e ∈ setupEvents f n ↔
      e = Event.call (Fn.log Level.info "YAGPDB is initializing...") ∨
      e = Event.call (Fn.commonInit (poolSizeAfterSizing f n)) ∨
      e = Event.call Fn.configstoreInitDatabases ∨
      ∃ q, q ∈ setupPlugins ∧ e = Event.call (Fn.register q) := by
  simp only [setupEvents, List.mem_append, List.mem_map, List.mem_cons, List.mem_singleton,
    List.not_mem_nil, or_false, or_assoc]
  constructor
  · rintro (h | h | h | ⟨q, hq, rfl⟩)
    · exact Or.inl h
    · exact Or.inr (Or.inl h)
    · exact Or.inr (Or.inr (Or.inl h))
    · exact Or.inr (Or.inr (Or.inr ⟨q, hq, rfl⟩))
  · rintro (h | h | h | ⟨q, hq, rfl⟩)
    · exact Or.inl h
    · exact Or.inr (Or.inl h)
    · exact Or.inr (Or.inr (Or.inl h))
    · exact Or.inr (Or.inr (Or.inr ⟨q, hq, rfl⟩))

/-- Events of the launch. -/
theorem mem_launchEvents (f : Flags) (e : Event) :
    e ∈ launchEvents f ↔
      e = Event.call Fn.commandsInitCommands ∨ e = Event.call Fn.mqueueInitStores ∨
      ((f.flagRunWeb = true ∨ f.flagRunEverything = true) ∧ e = Event.spawn Fn.webRun) ∨
      ((f.flagRunBot = true ∨ f.flagRunEverything = true) ∧
        (e = Event.call (Fn.register Plugin.mqueue) ∨
         e = Event.call (Fn.register Plugin.botrest) ∨ e = Event.call Fn.botRun)) ∨
      ((f.flagRunFeeds ≠ "" ∨ f.flagRunEverything = true) ∧
        e = Event.spawn (Fn.feedsRun (stringsSplit f.flagRunFeeds ','))) ∨
      e = Event.spawn Fn.pubsubPollEvents := by
  rcases f with ⟨b, wb, fs, a, d, ts, sl⟩
  by_cases hfs : fs = "" <;> cases b <;> cases wb <;> cases a <;> simp [launchEvents, hfs, or_assoc]

/-- Events of the stop phase. -/
theorem mem_stopEvents (f : Flags) (e : Event) :
    e ∈ stopEvents f ↔
      ((f.flagRunBot = true ∨ f.flagRunEverything = true) ∧
        (e = Event.call (Fn.wgAdd 1) ∨ e = Event.spawn Fn.botStop)) ∨
      ((f.flagRunFeeds ≠ "" ∨ f.flagRunEverything = true) ∧ e = Event.call Fn.feedsStop) ∨
      (f.flagRunWeb = true ∧ (e = Event.call Fn.webStop ∨ e = Event.call (Fn.timeSleep 1))) ∨
      ((f.flagRunBot = true ∨ f.flagRunFeeds ≠ "" ∨ f.flagRunEverything = true) ∧
        (e = Event.call (Fn.log Level.info "Waiting for things to shut down...") ∨
         e = Event.call Fn.wgWait)) := by
  rcases f with ⟨b, wb, fs, a, d, ts, sl⟩
  by_cases hfs : fs = "" <;> cases b <;> cases wb <;> cases a <;> simp [stopEvents, stopCalls, waitEvents, hfs, or_assoc]

/-- Events of the grace phase. -/
theorem mem_graceEvents (env : Env) (e : Event) :
    e ∈ graceEvents env ↔
      e = Event.call (Fn.log Level.info "Sleeping for a second to allow work to finish") ∨
      e = Event.call (Fn.timeSleep 1) ∨
      (env.testing = false ∧
        (e = Event.call (Fn.log Level.info "Sleeping a little longer") ∨
         e = Event.call (Fn.timeSleep 4))) ∨
      e = Event.call (Fn.log Level.info "Bye..") ∨ e = Event.call (Fn.osExit 0) := by
  rcases env with ⟨dsn, she, cie, tst, rps, sigs, e1, e2, e3⟩
  cases tst <;> simp [graceEvents, or_assoc]

/-- Registrations of a concatenation. -/
theorem registered_append (a b : List Event) :
    registered (a ++ b) = registered a ++ registered b := by
  simp [registered, List.filterMap_append]

/-- The prologue registers nothing. -/
theorem registered_prologueEvents (f : Flags) (env : Env) :
    registered (prologueEvents f env) = [] := by
  rcases env with ⟨dsn, she, cie, tst, rps, sigs, e1, e2, e3⟩
  rcases f with ⟨b, wb, fs, a, d, ts, sl⟩
  by_cases hdsn : dsn = "" <;> cases sl <;> cases she <;>
    simp [prologueEvents, registered, hdsn]

/-- The sizing registers nothing. -/
theorem registered_sizingEvents (f : Flags) : registered (sizingEvents f) = [] := by
  rcases f with ⟨b, wb, fs, a, d, ts, sl⟩
  cases b <;> cases wb <;> cases a <;> simp [sizingEvents, registered]

/-- The setup registers the 18 setup plugins in order. -/
theorem registered_setupEvents (f : Flags) (n : Nat) :
    registered (setupEvents f n) = setupPlugins := by
  simp [setupEvents, setupPlugins, registered]

/-- Receives of a concatenation. -/
theorem recvCount_append (a b : List Event) :
    recvCount (a ++ b) = recvCount a + recvCount b := by
  simp [recvCount, List.countP_append]

/-- A trace without receive events has receive count 0. -/
theorem recvCount_eq_zero (tr : List Event) (h : ∀ sig, Event.recv sig ∉ tr) :
    recvCount tr = 0 := by
  unfold recvCount
  rw [List.countP_eq_zero]
  intro e he
  cases e <;> simp
  exact h _ he

/-! ## The claims -/

/-- Claim C1: with `-bot`, `-web`, `-all` false, `-feeds` empty and `-dry` false, `main`
returns right after logging "Didnt specify what to run": `common.RedisPoolSize` is not
assigned, `common.Init` and `configstore.InitDatabases` are not called, no plugin is
registered, no subsystem is started and `listenSignal` is not entered. -/
theorem no_run_mode_returns_before_init (f : Flags) (env : Env)
    (hb : f.flagRunBot = false) (hw : f.flagRunWeb = false) (hf : f.flagRunFeeds = "")
    (ha : f.flagRunEverything = false) (hd : f.flagDryRun = false) :
    (runMain f env).outcome = Outcome.returned ∧
    (runMain f env).trace.getLast? =
      some (Event.call (Fn.log Level.error "Didnt specify what to run, see -h for more info")) ∧
    (runMain f env).redisPoolSize = env.redisPoolSize ∧
    (∀ n, Event.assignRedisPoolSize n ∉ (runMain f env).trace) ∧
    (∀ n, ¬ invoked (Fn.commonInit n) (runMain f env).trace) ∧
    ¬ invoked Fn.configstoreInitDatabases (runMain f env).trace ∧
    (∀ q, ¬ invoked (Fn.register q) (runMain f env).trace) ∧
    ¬ invoked Fn.webRun (runMain f env).trace ∧
    ¬ invoked Fn.botRun (runMain f env).trace ∧
    (∀ names, ¬ invoked (Fn.feedsRun names) (runMain f env).trace) ∧
    ¬ invoked Fn.pubsubPollEvents (runMain f env).trace ∧
    (∀ c, Event.makeChan c ∉ (runMain f env).trace) ∧
    ¬ invoked Fn.signalNotify (runMain f env).trace ∧
    recvCount (runMain f env).trace = 0 ∧
    (runMain f env).pending = env.signals := by
  have h : noRunMode f = true := by simp [noRunMode, hb, hw, hf, ha, hd]
  rw [runMain_noRunMode f env h]
  rcases env with ⟨dsn, she, cie, tst, rps, sigs, e1, e2, e3⟩
  rcases f with ⟨b, wb, fs, a, d, ts, sl⟩
  by_cases hdsn : dsn = "" <;> cases sl <;> cases she <;>
    simp [prologueEvents, invoked, recvCount, hdsn]

/-- Witness of claim C1 with no flag set. -/
theorem no_run_mode_returns_before_init_witness :
    (runMain ⟨false, false, "", false, false, false, false⟩
        ⟨"", false, false, false, 10, [Signal.sigterm], false, false, false⟩).outcome =
      Outcome.returned ∧
    ¬ invoked Fn.webRun (runMain ⟨false, false, "", false, false, false, false⟩
        ⟨"", false, false, false, 10, [Signal.sigterm], false, false, false⟩).trace :=
  have h := no_run_mode_returns_before_init ⟨false, false, "", false, false, false, false⟩
    ⟨"", false, false, false, 10, [Signal.sigterm], false, false, false⟩ rfl rfl rfl rfl rfl
  ⟨h.1, h.2.2.2.2.2.2.2.1⟩

/-- Claim C2: with `-dry` set and `common.Init` succeeding, `main` calls the 18 plugin
registration functions `discordlogger` ... `rolecommands`, in that order, and returns;
no subsystem is started, `commands.InitCommands` and `mqueue.InitStores` are not called
and `listenSignal` is not entered, whatever the other flags are. -/
theorem dry_run_registers_and_returns (f : Flags) (env : Env)
    (hd : f.flagDryRun = true) (hc : env.commonInitErr = false) :
    (runMain f env).outcome = Outcome.returned ∧
    registered (runMain f env).trace =
      [Plugin.discordlogger, Plugin.commands, Plugin.stdcommands, Plugin.serverstats,
       Plugin.notifications, Plugin.customcommands, Plugin.reddit, Plugin.moderation,
       Plugin.reputation, Plugin.aylien, Plugin.streaming, Plugin.automod, Plugin.logs,
       Plugin.autorole, Plugin.reminders, Plugin.soundboard, Plugin.youtube,
       Plugin.rolecommands] ∧
    (∀ q, Event.spawn (Fn.register q) ∉ (runMain f env).trace) ∧
    ¬ invoked Fn.webRun (runMain f env).trace ∧
    ¬ invoked Fn.botRun (runMain f env).trace ∧
    (∀ names, ¬ invoked (Fn.feedsRun names) (runMain f env).trace) ∧
    ¬ invoked Fn.pubsubPollEvents (runMain f env).trace ∧
    ¬ invoked Fn.commandsInitCommands (runMain f env).trace ∧
    ¬ invoked Fn.mqueueInitStores (runMain f env).trace ∧
    (∀ c, Event.makeChan c ∉ (runMain f env).trace) ∧
    ¬ invoked Fn.signalNotify (runMain f env).trace ∧
    recvCount (runMain f env).trace = 0 ∧
    (runMain f env).pending = env.signals := by
  rw [runMain_dry f env hd hc]
  refine ⟨rfl, ?_, ?_, ?_, ?_, ?_, ?_, ?_, ?_, ?_, ?_, ?_, rfl⟩
  · simp only [registered_append, registered_prologueEvents, registered_sizingEvents,
      registered_setupEvents]
    simp [setupPlugins, registered]
  all_goals first
    | (apply recvCount_eq_zero
       simp [mem_prologueEvents, mem_sizingEvents, mem_setupEvents])
    | simp [invoked, mem_prologueEvents, mem_sizingEvents, mem_setupEvents]

/-- Witness of claim C2 with `-dry -all`. -/
theorem dry_run_registers_and_returns_witness :
    (runMain ⟨false, false, "", true, true, false, false⟩
        ⟨"", false, false, false, 10, [Signal.sigterm], false, false, false⟩).outcome =
      Outcome.returned ∧
    ¬ invoked Fn.botRun (runMain ⟨false, false, "", true, true, false, false⟩
        ⟨"", false, false, false, 10, [Signal.sigterm], false, false, false⟩).trace :=
  have h := dry_run_registers_and_returns ⟨false, false, "", true, true, false, false⟩
    ⟨"", false, false, false, 10, [Signal.sigterm], false, false, false⟩ rfl rfl
  ⟨h.1, h.2.2.2.2.1⟩

/-- The pool size `common.Init` sees, in the words of the sizing rule. -/
theorem poolSizeAfterSizing_eq (f : Flags) (prior : Nat) :
    poolSizeAfterSizing f prior =
      if f.flagRunBot = true ∨ f.flagRunEverything = true then 100
      else if f.flagRunWeb = true then 25 else prior := by
  rcases f with ⟨b, wb, fs, a, d, ts, sl⟩
  cases b <;> cases wb <;> cases a <;> simp [poolSizeAfterSizing]

/-- Claim C3: for flags that pass the run-mode check, `common.Init` is called with
`common.RedisPoolSize` equal to 100 when `-bot` or `-all` is set (also when `-web` is set),
to 25 when `-web` is set without `-bot` and `-all`, and to its prior value otherwise. -/
theorem pool_size_at_common_init (f : Flags) (env : Env)
    (h : ¬ (f.flagRunBot = false ∧ f.flagRunWeb = false ∧ f.flagRunFeeds = "" ∧
      f.flagRunEverything = false ∧ f.flagDryRun = false)) (n : Nat) :
    invoked (Fn.commonInit n) (runMain f env).trace ↔
      n = if f.flagRunBot = true ∨ f.flagRunEverything = true then 100
          else if f.flagRunWeb = true then 25 else env.redisPoolSize := by
  have hm : noRunMode f = false := by
    rcases f with ⟨b, wb, fs, a, d, ts, sl⟩
    cases b <;> cases wb <;> cases a <;> cases d <;> simp_all [noRunMode]
  rw [← poolSizeAfterSizing_eq]
  by_cases hc : env.commonInitErr = true
  · rw [runMain_initErr f env hm hc]
    simp [invoked, mem_prologueEvents, mem_sizingEvents]
  have hc2 : env.commonInitErr = false := by simpa using hc
  by_cases hd : f.flagDryRun = true
  · rw [runMain_dry f env hd hc2]
    simp [invoked, mem_prologueEvents, mem_sizingEvents, mem_setupEvents]
  have hd2 : f.flagDryRun = false := by simpa using hd
  cases hs : env.signals with
  | nil =>
    rw [runMain_blocked f env hm hd2 hc2 hs]
    simp [invoked, mem_prologueEvents, mem_sizingEvents, mem_setupEvents, mem_launchEvents]
  | cons sig rest =>
    rw [runMain_shutdown f env sig rest hm hd2 hc2 hs]
    simp [invoked, mem_prologueEvents, mem_sizingEvents, mem_setupEvents, mem_launchEvents,
      mem_stopEvents, mem_graceEvents]

/-- Witness of claim C3 with `-web -bot`: the pool size is 100. -/
theorem pool_size_at_common_init_witness :
    invoked (Fn.commonInit 100) (runMain ⟨true, true, "", false, false, false, false⟩
        ⟨"", false, false, false, 10, [Signal.sigterm], false, false, false⟩).trace :=
  (pool_size_at_common_init ⟨true, true, "", false, false, false, false⟩
    ⟨"", false, false, false, 10, [Signal.sigterm], false, false, false⟩
    (by decide) 100).mpr (by decide)

/-- The run-mode check passes when the bot is selected. -/
theorem noRunMode_eq_false_of_bot (f : Flags)
    (h : f.flagRunBot = true ∨ f.flagRunEverything = true) : noRunMode f = false := by
  rcases f with ⟨b, wb, fs, a, d, ts, sl⟩
  cases b <;> cases a <;> simp_all [noRunMode]

/-- The stop phase when both the bot and the feeds branch run. -/
theorem stopEvents_of_bot_feeds (f : Flags)
    (hbot : f.flagRunBot = true ∨ f.flagRunEverything = true)
    (hfeeds : f.flagRunFeeds ≠ "" ∨ f.flagRunEverything = true) :
    stopEvents f =
      [Event.call (Fn.wgAdd 1), Event.spawn Fn.botStop, Event.call Fn.feedsStop] ++
      (if f.flagRunWeb then [Event.call Fn.webStop, Event.call (Fn.timeSleep 1)] else []) ++
      [Event.call (Fn.log Level.info "Waiting for things to shut down..."),
       Event.call Fn.wgWait] := by
  rcases f with ⟨b, wb, fs, a, d, ts, sl⟩
  by_cases hfs : fs = "" <;> cases b <;> cases wb <;> cases a <;>
    simp_all [stopEvents, stopCalls, waitEvents]

/-- With stop routines that all complete, whatever they report, `listenSignalUnder` is
`listenSignal`. -/
theorem listenSignalUnder_completes (x y z : Bool) (f : Flags) (env : Env) (w : World) :
    listenSignalUnder ⟨Routine.completes x, Routine.completes y, Routine.completes z⟩ f env w =
      listenSignal f env w := by
  rcases w with ⟨n, ps, t⟩
  cases ps with
  | nil =>
    rw [listenSignal_nil]
    simp [listenSignalUnder, bind, emit, call, recvSignal]
  | cons sig rest =>
    rw [listenSignal_cons]
    rcases f with ⟨b, wb, fs, a, d, ts, sl⟩
    rcases env with ⟨dsn, she, cie, tst, rps, sigs, e1, e2, e3⟩
    by_cases hfs : fs = "" <;> cases b <;> cases wb <;> cases a <;> cases tst <;>
      simp [listenSignalUnder, bind, emit, call, spawn, recvSignal, osExit, callRoutine,
        waitGroupWait, Routine.returns, stopEvents, stopCalls, waitEvents, graceEvents, hfs,
        pure]

/-- Whatever the stop routines do, a shutdown with the bot and the feeds selected starts
with the receive, the log line, `wg.Add(1)`, `go bot.Stop` and the call of `feeds.Stop`. -/
theorem listenSignalUnder_prefix (b : StopBehaviour) (f : Flags) (env : Env) (n : Nat)
    (sig : Signal) (rest : List Signal) (t : List Event)
    (hbot : f.flagRunBot = true ∨ f.flagRunEverything = true)
    (hfeeds : f.flagRunFeeds ≠ "" ∨ f.flagRunEverything = true) :
    t ++ [Event.makeChan 2, Event.call Fn.signalNotify, Event.recv sig,
        Event.call (Fn.log Level.info ("SHUTTING DOWN... " ++ sig.String)),
        Event.call (Fn.wgAdd 1), Event.spawn Fn.botStop, Event.call Fn.feedsStop] <+:
      (runListenSignalUnder b f env ⟨n, sig :: rest, t⟩).trace := by
  rcases b with ⟨rb, rf, rw⟩
  rcases f with ⟨b, wb, fs, a, d, ts, sl⟩
  rcases env with ⟨dsn, she, cie, tst, rps, sigs, e1, e2, e3⟩
  by_cases hfs : fs = "" <;> cases b <;> cases a <;> simp_all <;>
    cases wb <;> cases tst <;> cases rb <;> cases rf <;> cases rw <;>
    simp [runListenSignalUnder, listenSignalUnder, bind, emit, call, spawn, recvSignal,
      osExit, callRoutine, waitGroupWait, Routine.returns, Step.toRun, pure, hfs,
      List.prefix_append_right_inj, List.cons_prefix_cons]

/-- Claim C4 as stated fails: under `-all`, after a SIGTERM, a `bot.Stop` that never
calls `wg.Done` keeps `wg.Wait()` from coming back, so the process does not exit. -/
theorem bot_stop_hang_blocks_exit :
    ¬ ExitsWhateverStopsDo ⟨false, false, "", true, false, false, false⟩
      ⟨"", false, false, false, 10, [Signal.sigterm], false, false, false⟩
      ⟨100, [Signal.sigterm], []⟩ := by
  intro h
  have h2 := h ⟨Routine.hangs, Routine.completes false, Routine.completes false⟩
  revert h2
  decide

/-- Claim C4, amended: when the bot and the feeds subsystems both run and a termination
signal is received, `bot.Stop` and `feeds.Stop` are both invoked right after the receive,
before the join and the grace sleeps (1 second, then 4 more unless `common.Testing`), and
not before the receive; when the stop routines complete, the process leaves through
`os.Exit(0)` after that sequence, whatever failure they report; and whatever the stop
routines do, the shutdown starts with the receive followed by both invocations. -/
theorem stops_follow_receive_precede_grace (f : Flags) (env : Env) (sig : Signal)
    (rest : List Signal)
    (hbot : f.flagRunBot = true ∨ f.flagRunEverything = true)
    (hfeeds : f.flagRunFeeds ≠ "" ∨ f.flagRunEverything = true)
    (hd : f.flagDryRun = false) (hc : env.commonInitErr = false)
    (hs : env.signals = sig :: rest) :
    (∃ pre, (runMain f env).trace =
        pre ++ [Event.recv sig,
          Event.call (Fn.log Level.info ("SHUTTING DOWN... " ++ sig.String)),
          Event.call (Fn.wgAdd 1), Event.spawn Fn.botStop, Event.call Fn.feedsStop] ++
        (if f.flagRunWeb then [Event.call Fn.webStop, Event.call (Fn.timeSleep 1)] else []) ++
        [Event.call (Fn.log Level.info "Waiting for things to shut down..."),
          Event.call Fn.wgWait,
          Event.call (Fn.log Level.info "Sleeping for a second to allow work to finish"),
          Event.call (Fn.timeSleep 1)] ++
        (if env.testing then []
         else [Event.call (Fn.log Level.info "Sleeping a little longer"),
               Event.call (Fn.timeSleep 4)]) ++
        [Event.call (Fn.log Level.info "Bye.."), Event.call (Fn.osExit 0)] ∧
      recvCount pre = 0 ∧ ¬ invoked Fn.botStop pre ∧ ¬ invoked Fn.feedsStop pre ∧
      (∀ k, ¬ invoked (Fn.timeSleep k) pre) ∧ ¬ invoked Fn.wgWait pre) ∧
    (runMain f env).outcome = Outcome.osExit 0 ∧
    (runMain f env).outcome.exitStatus = some 0 ∧
    (∀ (x y z : Bool) (w : World),
      listenSignalUnder ⟨Routine.completes x, Routine.completes y, Routine.completes z⟩
        f env w = listenSignal f env w) ∧
    (∀ (b : StopBehaviour) (n : Nat) (t : List Event),
      t ++ [Event.makeChan 2, Event.call Fn.signalNotify, Event.recv sig,
          Event.call (Fn.log Level.info ("SHUTTING DOWN... " ++ sig.String)),
          Event.call (Fn.wgAdd 1), Event.spawn Fn.botStop, Event.call Fn.feedsStop] <+:
        (runListenSignalUnder b f env ⟨n, sig :: rest, t⟩).trace) := by
  have hm := noRunMode_eq_false_of_bot f hbot
  refine ⟨?_, ?_, ?_, fun x y z w => listenSignalUnder_completes x y z f env w,
    fun b n t => listenSignalUnder_prefix b f env n sig rest t hbot hfeeds⟩
  · rw [runMain_shutdown f env sig rest hm hd hc hs]
    refine ⟨prologueEvents f env ++ sizingEvents f ++ setupEvents f env.redisPoolSize ++
        launchEvents f ++ [Event.makeChan 2, Event.call Fn.signalNotify], ?_, ?_, ?_, ?_, ?_,
        ?_⟩
    · rw [stopEvents_of_bot_feeds f hbot hfeeds]
      simp [graceEvents]
    · apply recvCount_eq_zero
      simp [mem_prologueEvents, mem_sizingEvents, mem_setupEvents, mem_launchEvents]
    all_goals
      simp [invoked, mem_prologueEvents, mem_sizingEvents, mem_setupEvents, mem_launchEvents]
  · rw [runMain_shutdown f env sig rest hm hd hc hs]
  · rw [runMain_shutdown f env sig rest hm hd hc hs]
    rfl

/-- Witness of the amended claim C4 with `-all`: the run ends in `os.Exit(0)`. -/
theorem stops_follow_receive_precede_grace_witness :
    (runMain ⟨false, false, "", true, false, false, false⟩
        ⟨"", false, false, false, 10, [Signal.sigterm], true, true, false⟩).outcome =
      Outcome.osExit 0 :=
  (stops_follow_receive_precede_grace ⟨false, false, "", true, false, false, false⟩
    ⟨"", false, false, false, 10, [Signal.sigterm], true, true, false⟩ Signal.sigterm []
    (Or.inr rfl) (Or.inr rfl) rfl rfl rfl).2.1

/-- Claim C5: with only `-web` set, the shutdown calls `web.Stop` by a plain call, sleeps
1 second, does not wait on the WaitGroup and invokes neither `bot.Stop` nor `feeds.Stop`,
then goes on to the grace sleeps and `os.Exit(0)`. -/
theorem web_only_shutdown (f : Flags) (env : Env) (sig : Signal) (rest : List Signal)
    (hw : f.flagRunWeb = true) (hb : f.flagRunBot = false) (ha : f.flagRunEverything = false)
    (hf : f.flagRunFeeds = "") (hd : f.flagDryRun = false) (hc : env.commonInitErr = false)
    (hs : env.signals = sig :: rest) :
    (∃ pre, (runMain f env).trace =
        pre ++ [Event.recv sig,
          Event.call (Fn.log Level.info ("SHUTTING DOWN... " ++ sig.String)),
          Event.call Fn.webStop, Event.call (Fn.timeSleep 1),
          Event.call (Fn.log Level.info "Sleeping for a second to allow work to finish"),
          Event.call (Fn.timeSleep 1)] ++
        (if env.testing then []
         else [Event.call (Fn.log Level.info "Sleeping a little longer"),
               Event.call (Fn.timeSleep 4)]) ++
        [Event.call (Fn.log Level.info "Bye.."), Event.call (Fn.osExit 0)]) ∧
    ¬ invoked Fn.wgWait (runMain f env).trace ∧
    (∀ k, ¬ invoked (Fn.wgAdd k) (runMain f env).trace) ∧
    ¬ invoked Fn.botStop (runMain f env).trace ∧
    ¬ invoked Fn.feedsStop (runMain f env).trace ∧
    Event.spawn Fn.webStop ∉ (runMain f env).trace ∧
    (runMain f env).outcome = Outcome.osExit 0 := by
  have hm : noRunMode f = false := by simp [noRunMode, hw, hb]
  rw [runMain_shutdown f env sig rest hm hd hc hs]
  refine ⟨⟨prologueEvents f env ++ sizingEvents f ++ setupEvents f env.redisPoolSize ++
        launchEvents f ++ [Event.makeChan 2, Event.call Fn.signalNotify], ?_⟩, ?_, ?_, ?_, ?_,
        ?_, rfl⟩
  · simp [stopEvents, stopCalls, waitEvents, graceEvents, hw, hb, ha, hf]
  all_goals
    simp [invoked, mem_prologueEvents, mem_sizingEvents, mem_setupEvents, mem_launchEvents,
      mem_stopEvents, mem_graceEvents, hw, hb, ha, hf]

/-- Witness of claim C5 with `-web` alone. -/
theorem web_only_shutdown_witness :
    ¬ invoked Fn.wgWait (runMain ⟨false, true, "", false, false, false, false⟩
        ⟨"", false, false, false, 10, [Signal.interrupt], false, false, false⟩).trace :=
  (web_only_shutdown ⟨false, true, "", false, false, false, false⟩
    ⟨"", false, false, false, 10, [Signal.interrupt], false, false, false⟩ Signal.interrupt []
    rfl rfl rfl rfl rfl rfl rfl).2.1

/-- Claim C6, evaluated at `-all` alone with one SIGTERM: `main` starts `web.Run`, and the
shutdown, which invokes `bot.Stop` and `feeds.Stop` and exits with status 0, never invokes
`web.Stop`. -/
theorem all_flag_web_started_not_stopped :
    invoked Fn.webRun (runMain ⟨false, false, "", true, false, false, false⟩
      ⟨"", false, false, false, 10, [Signal.sigterm], false, false, false⟩).trace ∧
    ¬ invoked Fn.webStop (runMain ⟨false, false, "", true, false, false, false⟩
      ⟨"", false, false, false, 10, [Signal.sigterm], false, false, false⟩).trace ∧
    invoked Fn.botRun (runMain ⟨false, false, "", true, false, false, false⟩
      ⟨"", false, false, false, 10, [Signal.sigterm], false, false, false⟩).trace ∧
    invoked Fn.botStop (runMain ⟨false, false, "", true, false, false, false⟩
      ⟨"", false, false, false, 10, [Signal.sigterm], false, false, false⟩).trace ∧
    invoked (Fn.feedsRun [""]) (runMain ⟨false, false, "", true, false, false, false⟩
      ⟨"", false, false, false, 10, [Signal.sigterm], false, false, false⟩).trace ∧
    invoked Fn.feedsStop (runMain ⟨false, false, "", true, false, false, false⟩
      ⟨"", false, false, false, 10, [Signal.sigterm], false, false, false⟩).trace ∧
    (runMain ⟨false, false, "", true, false, false, false⟩
      ⟨"", false, false, false, 10, [Signal.sigterm], false, false, false⟩).outcome =
        Outcome.osExit 0 := by
  decide

/-! ## Order of events -/

/-- An element that does not occur in the second part of a list occurs in the first:
everything before it lies in the first part. -/
theorem before_of_not_mem_right {α : Type} (A B pre post : List α) (x : α) (hx : x ∉ B)
    (h : A ++ B = pre ++ x :: post) : ∀ y, y ∈ pre → y ∈ A := by
  rcases List.append_eq_append_iff.mp h with ⟨a, _, hB⟩ | ⟨c, hA, hc⟩
  · exact absurd (hB ▸ List.mem_append_right a (List.mem_cons_self x post)) hx
  · intro y hy
    rw [hA]
    exact List.mem_append_left c hy

/-- An element that does not occur in the first part of a list occurs in the second:
the whole first part lies before it. -/
theorem after_of_not_mem_left {α : Type} (A B pre post : List α) (x : α) (hx : x ∉ A)
    (h : A ++ B = pre ++ x :: post) : ∀ y, y ∈ A → y ∈ pre := by
  rcases List.append_eq_append_iff.mp h with ⟨a, hpre, _⟩ | ⟨c, hA, hc⟩
  · intro y hy
    rw [hpre]
    exact List.mem_append_left a hy
  · cases c with
    | nil =>
      intro y hy
      rw [hA] at hy
      simpa using hy
    | cons z c =>
      simp only [List.cons_append, List.cons.injEq] at hc
      exact absurd (hA ▸ List.mem_append_right pre (hc.1 ▸ List.mem_cons_self x c)) hx

/-- An element at which a list is split, and all before it, lie in the list. -/
theorem mem_of_split {α : Type} (tr pre post : List α) (x : α) (h : tr = pre ++ x :: post) :
    x ∈ tr ∧ ∀ y, y ∈ pre → y ∈ tr := by
  subst h
  exact ⟨by simp, fun y hy => List.mem_append_left _ hy⟩

/-- Every run of `main` is the events up to the plugin setup followed by the rest, where
the first part holds no `commands.InitCommands` and only registrations of setup plugins,
and the rest, if it holds a registration, is that of `mqueue` or `botrest` under `-bot` or
`-all` and starts with `commands.InitCommands`. -/
theorem runMain_trace_split (f : Flags) (env : Env) :
    ∃ A B, (runMain f env).trace = A ++ B ∧
      Event.call Fn.commandsInitCommands ∉ A ∧
      (∀ q, Event.call (Fn.register q) ∈ A → q ∈ setupPlugins) ∧
      (Event.call Fn.commandsInitCommands ∈ B →
        ∀ q, q ∈ setupPlugins → Event.call (Fn.register q) ∈ A) ∧
      (∀ q, Event.call (Fn.register q) ∈ B →
        (q = Plugin.mqueue ∨ q = Plugin.botrest) ∧
        (f.flagRunBot = true ∨ f.flagRunEverything = true) ∧
        ∃ B2, B = Event.call Fn.commandsInitCommands :: B2) := by
  by_cases hm : noRunMode f = true
  · refine ⟨(runMain f env).trace, [], by simp, ?_, ?_, ?_, ?_⟩
    all_goals simp [runMain_noRunMode f env hm, mem_prologueEvents]
  have hm2 : noRunMode f = false := by simpa using hm
  by_cases hc : env.commonInitErr = true
  · refine ⟨(runMain f env).trace, [], by simp, ?_, ?_, ?_, ?_⟩
    all_goals simp [runMain_initErr f env hm2 hc, mem_prologueEvents, mem_sizingEvents]
  have hc2 : env.commonInitErr = false := by simpa using hc
  by_cases hd : f.flagDryRun = true
  · refine ⟨(runMain f env).trace, [], by simp, ?_, ?_, ?_, ?_⟩
    all_goals
      simp [runMain_dry f env hd hc2, mem_prologueEvents, mem_sizingEvents, mem_setupEvents]
  have hd2 : f.flagDryRun = false := by simpa using hd
  have hhead : ∀ C : List Event, ∃ B2, launchEvents f ++ C =
      Event.call Fn.commandsInitCommands :: B2 := by
    intro C
    exact ⟨_, by simp [launchEvents]; rfl⟩
  cases hs : env.signals with
  | nil =>
    refine ⟨prologueEvents f env ++ sizingEvents f ++ setupEvents f env.redisPoolSize,
      launchEvents f ++ [Event.makeChan 2, Event.call Fn.signalNotify], ?_, ?_, ?_, ?_, ?_⟩
    · rw [runMain_blocked f env hm2 hd2 hc2 hs]
      simp
    · simp [mem_prologueEvents, mem_sizingEvents, mem_setupEvents]
    · simp [mem_prologueEvents, mem_sizingEvents, mem_setupEvents]
    · intro _
      simp [mem_prologueEvents, mem_sizingEvents, mem_setupEvents]
    · intro q hq
      refine ⟨?_, ?_, hhead _⟩
      · simp [mem_launchEvents] at hq
        exact hq.2
      · simp [mem_launchEvents] at hq
        exact hq.1
  | cons sig rest =>
    refine ⟨prologueEvents f env ++ sizingEvents f ++ setupEvents f env.redisPoolSize,
      launchEvents f ++ ([Event.makeChan 2, Event.call Fn.signalNotify, Event.recv sig,
          Event.call (Fn.log Level.info ("SHUTTING DOWN... " ++ sig.String))] ++
        stopEvents f ++ graceEvents env), ?_, ?_, ?_, ?_, ?_⟩
    · rw [runMain_shutdown f env sig rest hm2 hd2 hc2 hs]
      simp
    · simp [mem_prologueEvents, mem_sizingEvents, mem_setupEvents]
    · simp [mem_prologueEvents, mem_sizingEvents, mem_setupEvents]
    · intro _
      simp [mem_prologueEvents, mem_sizingEvents, mem_setupEvents]
    · intro q hq
      refine ⟨?_, ?_, hhead _⟩
      · simp [mem_launchEvents, mem_stopEvents, mem_graceEvents] at hq
        exact hq.2
      · simp [mem_launchEvents, mem_stopEvents, mem_graceEvents] at hq
        exact hq.1

/-- Claim C7 as stated fails: with `-bot` alone, `mqueue.RegisterPlugin` is called after
`commands.InitCommands`. -/
theorem bot_registers_after_init_commands :
    ¬ RegistrationsPrecedeInitCommands
      (runMain ⟨true, false, "", false, false, false, false⟩
        ⟨"", false, false, false, 10, [Signal.sigterm], false, false, false⟩).trace := by
  intro h
  refine h Plugin.mqueue
    ((runMain ⟨true, false, "", false, false, false, false⟩
        ⟨"", false, false, false, 10, [Signal.sigterm], false, false, false⟩).trace.take 27)
    ((runMain ⟨true, false, "", false, false, false, false⟩
        ⟨"", false, false, false, 10, [Signal.sigterm], false, false, false⟩).trace.drop 28)
    (by decide) (by decide)

/-- Claim C7, amended: in every run of `main` each registration call of the 18 setup
plugins (`discordlogger` ... `rolecommands`) comes before `commands.InitCommands`, and when
`commands.InitCommands` is called all 18 have been registered before it; the calls
`mqueue.RegisterPlugin` and `botrest.RegisterPlugin` occur only with `-bot` or `-all` and
come after `commands.InitCommands`. -/
theorem setup_registrations_precede_init_commands (f : Flags) (env : Env) :
    (∀ q pre post, q ≠ Plugin.mqueue → q ≠ Plugin.botrest →
      (runMain f env).trace = pre ++ Event.call (Fn.register q) :: post →
      Event.call Fn.commandsInitCommands ∉ pre) ∧
    (∀ pre post, (runMain f env).trace = pre ++ Event.call Fn.commandsInitCommands :: post →
      ∀ q, q ∈ [Plugin.discordlogger, Plugin.commands, Plugin.stdcommands, Plugin.serverstats,
        Plugin.notifications, Plugin.customcommands, Plugin.reddit, Plugin.moderation,
        Plugin.reputation, Plugin.aylien, Plugin.streaming, Plugin.automod, Plugin.logs,
        Plugin.autorole, Plugin.reminders, Plugin.soundboard, Plugin.youtube,
        Plugin.rolecommands] → Event.call (Fn.register q) ∈ pre) ∧
    (∀ q pre post, (q = Plugin.mqueue ∨ q = Plugin.botrest) →
      (runMain f env).trace = pre ++ Event.call (Fn.register q) :: post →
      Event.call Fn.commandsInitCommands ∈ pre ∧
      (f.flagRunBot = true ∨ f.flagRunEverything = true)) := by
  obtain ⟨A, B, hAB, hA, hAq, hBi, hB⟩ := runMain_trace_split f env
  refine ⟨?_, ?_, ?_⟩
  · intro q pre post h1 h2 hsplit hmem
    rw [hAB] at hsplit
    have hx : Event.call (Fn.register q) ∉ B := fun hq => (hB q hq).1.elim h1 h2
    exact hA (before_of_not_mem_right A B pre post _ hx hsplit _ hmem)
  · intro pre post hsplit q hq
    rw [hAB] at hsplit
    have hin : Event.call Fn.commandsInitCommands ∈ B := by
      have := (mem_of_split _ pre post _ hsplit).1
      rcases List.mem_append.mp this with h | h
      · exact absurd h hA
      · exact h
    exact after_of_not_mem_left A B pre post _ hA hsplit _ (hBi hin q hq)
  · intro q pre post hq hsplit
    rw [hAB] at hsplit
    have hxA : Event.call (Fn.register q) ∉ A := by
      intro hmem
      have := hAq q hmem
      rcases hq with rfl | rfl <;> simp [setupPlugins] at this
    have hxB : Event.call (Fn.register q) ∈ B := by
      have := (mem_of_split _ pre post _ hsplit).1
      rcases List.mem_append.mp this with h | h
      · exact absurd h hxA
      · exact h
    obtain ⟨_, hflag, B2, hB2⟩ := hB q hxB
    refine ⟨?_, hflag⟩
    have hsplit2 : (A ++ [Event.call Fn.commandsInitCommands]) ++ B2 =
        pre ++ Event.call (Fn.register q) :: post := by
      rw [← hsplit, hB2]
      simp
    have hx2 : Event.call (Fn.register q) ∉ A ++ [Event.call Fn.commandsInitCommands] := by
      simp [hxA]
    exact after_of_not_mem_left _ B2 pre post _ hx2 hsplit2 _ (by simp)

/-- Witness of the amended claim C7 with `-bot`: `botrest.RegisterPlugin` is called after
`commands.InitCommands`. -/
theorem setup_registrations_precede_init_commands_witness :
    Event.call Fn.commandsInitCommands ∈
      (runMain ⟨true, false, "", false, false, false, false⟩
        ⟨"", false, false, false, 10, [Signal.sigterm], false, false, false⟩).trace.take 28 ∧
    (true = true ∨ false = true) :=
  (setup_registrations_precede_init_commands ⟨true, false, "", false, false, false, false⟩
    ⟨"", false, false, false, 10, [Signal.sigterm], false, false, false⟩).2.2
    Plugin.botrest
    ((runMain ⟨true, false, "", false, false, false, false⟩
        ⟨"", false, false, false, 10, [Signal.sigterm], false, false, false⟩).trace.take 28)
    ((runMain ⟨true, false, "", false, false, false, false⟩
        ⟨"", false, false, false, 10, [Signal.sigterm], false, false, false⟩).trace.drop 29)
    (Or.inr rfl) (by decide)

/-- The run-mode check of line 97 in terms of the five flags. -/
theorem noRunMode_iff (f : Flags) :
    noRunMode f = true ↔
      (f.flagRunBot = false ∧ f.flagRunWeb = false ∧ f.flagRunFeeds = "" ∧
        f.flagRunEverything = false ∧ f.flagDryRun = false) := by
  rcases f with ⟨b, wb, fs, a, d, ts, sl⟩
  cases b <;> cases wb <;> cases a <;> cases d <;> simp [noRunMode]

/-- Claim C8 as stated fails: with no run mode selected `main` logs an error and returns,
so the exit status is 0, not a non-zero one. -/
theorem no_run_mode_exit_status_zero :
    ¬ ExitsNonZero (runMain ⟨false, false, "", false, false, false, false⟩
      ⟨"", false, false, false, 10, [Signal.sigterm], false, false, false⟩) := by
  rintro ⟨c, hc, hne⟩
  have h0 : (runMain ⟨false, false, "", false, false, false, false⟩
      ⟨"", false, false, false, 10, [Signal.sigterm], false, false, false⟩).outcome.exitStatus =
      some 0 := by decide
  rw [h0] at hc
  exact hne (Option.some.inj hc).symm

/-- Claim C8, amended: the exit status is 0 on a clean shutdown, on a successful dry run
and when no run mode is selected (there `main` logs the error and returns); it is
non-zero, namely 1, when `common.Init` fails. -/
theorem exit_status_of_run (f : Flags) (env : Env) :
    (noRunMode f = false → f.flagDryRun = false → env.commonInitErr = false →
      env.signals ≠ [] →
      (runMain f env).outcome = Outcome.osExit 0 ∧
      (runMain f env).outcome.exitStatus = some 0) ∧
    (f.flagDryRun = true → env.commonInitErr = false →
      (runMain f env).outcome = Outcome.returned ∧
      (runMain f env).outcome.exitStatus = some 0) ∧
    (noRunMode f = false → env.commonInitErr = true →
      (runMain f env).outcome.exitStatus = some 1 ∧ ExitsNonZero (runMain f env)) ∧
    (f.flagRunBot = false → f.flagRunWeb = false → f.flagRunFeeds = "" →
      f.flagRunEverything = false → f.flagDryRun = false →
      (runMain f env).outcome = Outcome.returned ∧
      (runMain f env).outcome.exitStatus = some 0) := by
  refine ⟨?_, ?_, ?_, ?_⟩
  · intro hm hd hc hs
    obtain ⟨sig, rest, hsig⟩ := List.exists_cons_of_ne_nil hs
    rw [runMain_shutdown f env sig rest hm hd hc hsig]
    exact ⟨rfl, rfl⟩
  · intro hd hc
    rw [runMain_dry f env hd hc]
    exact ⟨rfl, rfl⟩
  · intro hm hc
    rw [runMain_initErr f env hm hc]
    exact ⟨rfl, 1, rfl, by decide⟩
  · intro hb hw hf ha hd
    rw [runMain_noRunMode f env ((noRunMode_iff f).mpr ⟨hb, hw, hf, ha, hd⟩)]
    exact ⟨rfl, rfl⟩

/-- Witness of the amended claim C8: `common.Init` fails under `-bot`, status 1. -/
theorem exit_status_of_run_witness :
    (runMain ⟨true, false, "", false, false, false, false⟩
      ⟨"", false, true, false, 10, [Signal.sigterm], false, false, false⟩).outcome.exitStatus =
      some 1 :=
  ((exit_status_of_run ⟨true, false, "", false, false, false, false⟩
    ⟨"", false, true, false, 10, [Signal.sigterm], false, false, false⟩).2.2.1 rfl rfl).1

/-- Invocations in a concatenation. -/
theorem invocations_append (fn : Fn) (a b : List Event) :
    invocations fn (a ++ b) = invocations fn a + invocations fn b := by
  simp only [invocations, List.count_append]
  omega

/-- A function that was not invoked has 0 invocations. -/
theorem invocations_eq_zero (fn : Fn) (tr : List Event) (h : ¬ invoked fn tr) :
    invocations fn tr = 0 := by
  unfold invoked at h
  simp only [invocations, Nat.add_eq_zero_iff, List.count_eq_zero]
  exact ⟨fun hc => h (Or.inl hc), fun hs => h (Or.inr hs)⟩

/-- Events of the join. -/
theorem mem_waitEvents (f : Flags) (e : Event) (h : e ∈ waitEvents f) :
    e = Event.call (Fn.log Level.info "Waiting for things to shut down...") ∨
      e = Event.call Fn.wgWait := by
  unfold waitEvents at h
  split at h
  · simpa using h
  · simp at h

/-- Each stop routine is invoked at most once by the stop branches. -/
theorem stopCalls_invocations (f : Flags) :
    invocations Fn.botStop (stopCalls f) ≤ 1 ∧ invocations Fn.feedsStop (stopCalls f) ≤ 1 ∧
      invocations Fn.webStop (stopCalls f) ≤ 1 := by
  rcases f with ⟨b, wb, fs, a, d, ts, sl⟩
  by_cases hfs : fs = "" <;> cases b <;> cases wb <;> cases a <;>
    simp [invocations, stopCalls, hfs, List.count_cons]

/-- Counts of receives and stop invocations in what `listenSignal` executes. -/
theorem stop_counts (f : Flags) (env : Env) (sig : Signal) :
    recvCount ([Event.makeChan 2, Event.call Fn.signalNotify, Event.recv sig,
        Event.call (Fn.log Level.info ("SHUTTING DOWN... " ++ sig.String))] ++
        stopEvents f ++ graceEvents env) = 1 ∧
    invocations Fn.botStop ([Event.makeChan 2, Event.call Fn.signalNotify, Event.recv sig,
        Event.call (Fn.log Level.info ("SHUTTING DOWN... " ++ sig.String))] ++
        stopEvents f ++ graceEvents env) ≤ 1 ∧
    invocations Fn.feedsStop ([Event.makeChan 2, Event.call Fn.signalNotify, Event.recv sig,
        Event.call (Fn.log Level.info ("SHUTTING DOWN... " ++ sig.String))] ++
        stopEvents f ++ graceEvents env) ≤ 1 ∧
    invocations Fn.webStop ([Event.makeChan 2, Event.call Fn.signalNotify, Event.recv sig,
        Event.call (Fn.log Level.info ("SHUTTING DOWN... " ++ sig.String))] ++
        stopEvents f ++ graceEvents env) ≤ 1 := by
  obtain ⟨hb, hf, hw⟩ := stopCalls_invocations f
  have hwait : ∀ fn, fn = Fn.botStop ∨ fn = Fn.feedsStop ∨ fn = Fn.webStop →
      invocations fn (waitEvents f) = 0 := by
    intro fn hfn
    apply invocations_eq_zero
    rintro (h | h) <;> have h2 := mem_waitEvents f _ h <;>
      rcases hfn with rfl | rfl | rfl <;> simp at h2
  have hgrace : ∀ fn, fn = Fn.botStop ∨ fn = Fn.feedsStop ∨ fn = Fn.webStop →
      invocations fn (graceEvents env) = 0 := by
    intro fn hfn
    apply invocations_eq_zero
    rcases hfn with rfl | rfl | rfl <;> simp [invoked, mem_graceEvents]
  refine ⟨?_, ?_, ?_, ?_⟩
  · rw [recvCount_append, recvCount_append,
      recvCount_eq_zero (stopEvents f) (by simp [mem_stopEvents]),
      recvCount_eq_zero (graceEvents env) (by simp [mem_graceEvents])]
    simp [recvCount]
  · rw [invocations_append, invocations_append, stopEvents, invocations_append,
      hwait _ (Or.inl rfl), hgrace _ (Or.inl rfl)]
    simp [invocations, List.count_cons]
    simpa [invocations] using hb
  · rw [invocations_append, invocations_append, stopEvents, invocations_append,
      hwait _ (Or.inr (Or.inl rfl)), hgrace _ (Or.inr (Or.inl rfl))]
    simp [invocations, List.count_cons]
    simpa [invocations] using hf
  · rw [invocations_append, invocations_append, stopEvents, invocations_append,
      hwait _ (Or.inr (Or.inr rfl)), hgrace _ (Or.inr (Or.inr rfl))]
    simp [invocations, List.count_cons]
    simpa [invocations] using hw

/-- Claim C9: an execution of `listenSignal` reads at most one signal from the channel
and invokes each of `bot.Stop`, `feeds.Stop` and `web.Stop` at most once; when a signal is
there it reads exactly that one, leaves the later ones unread, ends in `os.Exit(0)`, and
what it executes does not depend on the later signals. -/
theorem stop_sequence_runs_once (f : Flags) (env : Env) (n : Nat) (ps : List Signal)
    (t : List Event) :
    ∃ added, (runListenSignal f env ⟨n, ps, t⟩).trace = t ++ added ∧
      recvCount added ≤ 1 ∧
      invocations Fn.botStop added ≤ 1 ∧
      invocations Fn.feedsStop added ≤ 1 ∧
      invocations Fn.webStop added ≤ 1 ∧
      (∀ sig rest, ps = sig :: rest →
        recvCount added = 1 ∧
        (runListenSignal f env ⟨n, ps, t⟩).pending = rest ∧
        (runListenSignal f env ⟨n, ps, t⟩).outcome = Outcome.osExit 0 ∧
        ∀ rest2, (runListenSignal f env ⟨n, sig :: rest2, t⟩).trace = t ++ added) := by
  cases ps with
  | nil =>
    refine ⟨[Event.makeChan 2, Event.call Fn.signalNotify], ?_, ?_, ?_, ?_, ?_, ?_⟩
    · simp [runListenSignal, listenSignal_nil, Step.toRun]
    all_goals simp [recvCount, invocations, List.count_cons]
  | cons sig rest =>
    obtain ⟨h1, h2, h3, h4⟩ := stop_counts f env sig
    refine ⟨[Event.makeChan 2, Event.call Fn.signalNotify, Event.recv sig,
        Event.call (Fn.log Level.info ("SHUTTING DOWN... " ++ sig.String))] ++
        stopEvents f ++ graceEvents env, ?_, by omega, h2, h3, h4, ?_⟩
    · simp [runListenSignal, listenSignal_cons, Step.toRun]
    · intro sig2 rest3 hps
      obtain ⟨rfl, rfl⟩ := List.cons.inj hps
      refine ⟨h1, ?_, ?_, ?_⟩
      · simp [runListenSignal, listenSignal_cons, Step.toRun]
      · simp [runListenSignal, listenSignal_cons, Step.toRun]
      · intro rest2
        simp [runListenSignal, listenSignal_cons, Step.toRun]

/-- Witness of claim C9: two SIGTERM under `-all`; the second one stays unread. -/
theorem stop_sequence_runs_once_witness :
    (runListenSignal ⟨false, false, "", true, false, false, false⟩
      ⟨"", false, false, false, 10, [], false, false, false⟩
      ⟨100, [Signal.sigterm, Signal.sigterm], []⟩).pending = [Signal.sigterm] := by
  obtain ⟨added, _, _, _, _, _, h⟩ :=
    stop_sequence_runs_once ⟨false, false, "", true, false, false, false⟩
      ⟨"", false, false, false, 10, [], false, false, false⟩ 100
      [Signal.sigterm, Signal.sigterm] []
  exact (h Signal.sigterm [Signal.sigterm] rfl).2.1

/-- Splitting never gives the empty list. -/
theorem splitChars_ne_nil (sep : Char) (acc s : List Char) : splitChars sep acc s ≠ [] := by
  induction s generalizing acc with
  | nil => simp [splitChars]
  | cons c cs ih =>
    unfold splitChars
    split
    · simp
    · exact ih _

/-- Claim C10: whenever `feeds.Run` is started its argument is
`strings.Split(flagRunFeeds, ",")`, which is never the empty list; it is started whenever
`-feeds` is non-empty or `-all` is set on a run that gets to the launch, and with `-all`
and `-feeds` empty its argument is the one-element list `[""]`. -/
theorem feeds_run_names (f : Flags) (env : Env) :
    (∀ names, invoked (Fn.feedsRun names) (runMain f env).trace →
      names = stringsSplit f.flagRunFeeds ',' ∧ names ≠ []) ∧
    ((f.flagRunFeeds ≠ "" ∨ f.flagRunEverything = true) → f.flagDryRun = false →
      env.commonInitErr = false →
      Event.spawn (Fn.feedsRun (stringsSplit f.flagRunFeeds ',')) ∈ (runMain f env).trace) ∧
    (f.flagRunEverything = true → f.flagRunFeeds = "" → f.flagDryRun = false →
      env.commonInitErr = false →
      Event.spawn (Fn.feedsRun [""]) ∈ (runMain f env).trace) := by
  have hne : stringsSplit f.flagRunFeeds ',' ≠ [] := by
    simp [stringsSplit, splitChars_ne_nil]
  have hlaunch : (f.flagRunFeeds ≠ "" ∨ f.flagRunEverything = true) → f.flagDryRun = false →
      env.commonInitErr = false →
      Event.spawn (Fn.feedsRun (stringsSplit f.flagRunFeeds ',')) ∈ (runMain f env).trace := by
    intro hfe hd hc
    have hm : noRunMode f = false := by
      rcases f with ⟨b, wb, fs, a, d, ts, sl⟩
      cases a <;> simp_all [noRunMode]
    cases hs : env.signals with
    | nil =>
      rw [runMain_blocked f env hm hd hc hs]
      simp [mem_launchEvents, hfe]
    | cons sig rest =>
      rw [runMain_shutdown f env sig rest hm hd hc hs]
      simp [mem_launchEvents, hfe]
  refine ⟨?_, hlaunch, ?_⟩
  · intro names hin
    suffices h : names = stringsSplit f.flagRunFeeds ',' from ⟨h, h ▸ hne⟩
    by_cases hm : noRunMode f = true
    · rw [runMain_noRunMode f env hm] at hin
      simp [invoked, mem_prologueEvents] at hin
    have hm2 : noRunMode f = false := by simpa using hm
    by_cases hc : env.commonInitErr = true
    · rw [runMain_initErr f env hm2 hc] at hin
      simp [invoked, mem_prologueEvents, mem_sizingEvents] at hin
    have hc2 : env.commonInitErr = false := by simpa using hc
    by_cases hd : f.flagDryRun = true
    · rw [runMain_dry f env hd hc2] at hin
      simp [invoked, mem_prologueEvents, mem_sizingEvents, mem_setupEvents] at hin
    have hd2 : f.flagDryRun = false := by simpa using hd
    cases hs : env.signals with
    | nil =>
      rw [runMain_blocked f env hm2 hd2 hc2 hs] at hin
      simp [invoked, mem_prologueEvents, mem_sizingEvents, mem_setupEvents,
        mem_launchEvents] at hin
      exact hin.2
    | cons sig rest =>
      rw [runMain_shutdown f env sig rest hm2 hd2 hc2 hs] at hin
      simp [invoked, mem_prologueEvents, mem_sizingEvents, mem_setupEvents,
        mem_launchEvents, mem_stopEvents, mem_graceEvents] at hin
      exact hin.2
  · intro ha hf hd hc
    have h := hlaunch (Or.inr ha) hd hc
    rw [hf] at h
    exact h

/-- Witness of claim C10 with `-all` alone: `feeds.Run` gets `[""]`. -/
theorem feeds_run_names_witness :
    Event.spawn (Fn.feedsRun [""]) ∈ (runMain ⟨false, false, "", true, false, false, false⟩
      ⟨"", false, false, false, 10, [Signal.sigterm], false, false, false⟩).trace :=
  (feeds_run_names ⟨false, false, "", true, false, false, false⟩
    ⟨"", false, false, false, 10, [Signal.sigterm], false, false, false⟩).2.2 rfl rfl rfl rfl

end Yagpdb
